import Mathlib

/-!
Shallow embedding of `script.py`, the synthetic-data generator of
CreditIQ-Analytics. Real-valued draws are modelled as rationals, integer
columns as integers, and the pseudo-random draws of each column as explicit
streams (a fixed seed determines every stream, so "same seed" is modelled as
"same streams"). The process-wide RNG consumed by
`calculate_default_probability` is modelled as a stream together with a
position counter that the function advances.
-/

namespace CreditIQ

/-- Employment categories drawn at `script.py` line 19. -/
inductive EmploymentType where
  | Salaried
  | SelfEmployed
  | BusinessOwner
  | Freelancer
deriving DecidableEq, Repr

/-- City tiers drawn at `script.py` line 20. -/
inductive CityTier where
  | Tier1
  | Tier2
  | Tier3
deriving DecidableEq, Repr

/-- Education categories drawn at `script.py` line 21. -/
inductive EducationLevel where
  | Graduate
  | PostGraduate
  | Undergraduate
  | Diploma
deriving DecidableEq, Repr

/-- Loan purposes drawn at `script.py` lines 110-111. -/
inductive LoanPurpose where
  | Personal
  | Business
  | EducationPurpose
  | Medical
  | HomeImprovement
deriving DecidableEq, Repr

/-- np.clip on integers: np.clip(a, lo, hi) = min(max(a, lo), hi). -/
def npClipZ (a lo hi : ℤ) : ℤ := min (max a lo) hi

/-- np.clip on reals (modelled as rationals). -/
def npClipQ (a lo hi : ℚ) : ℚ := min (max a lo) hi

/-- Decimal digit character: Python formats numbers with the ASCII digits. -/
def digitChar (d : ℕ) : Char := Char.ofNat (48 + d)

/-- Python `str(i)` for a natural number: its decimal digits, most
significant first (`Nat.digits` is little-endian, hence the reverse). -/
def pyStr (i : ℕ) : List Char :=
  if i = 0 then ['0'] else ((Nat.digits 10 i).map digitChar).reverse

/-- Python `str.zfill(w)`: left-pad with '0' to width `w`. -/
def zfill (w : ℕ) (s : List Char) : List Char :=
  List.replicate (w - s.length) '0' ++ s

/-- Borrower identifier `f'BRW{str(i).zfill(6)}'` (`script.py` line 16). -/
def borrowerId (i : ℕ) : List Char :=
  'B' :: 'R' :: 'W' :: zfill 6 (pyStr i)

/-- Loan identifier `f'LN{str(i).zfill(8)}'` (`script.py` line 105). -/
def loanId (i : ℕ) : List Char :=
  'L' :: 'N' :: zfill 8 (pyStr i)

/-- One row of `borrower_data` (`script.py` lines 15-31), after the clips. -/
structure BorrowerRow where
  borrower_id : List Char
  age : ℤ
  income : ℤ
  employment_type : EmploymentType
  city_tier : CityTier
  education : EducationLevel
  existing_loans : ℤ
  credit_history_months : ℤ
  bank_account_age_months : ℤ
deriving DecidableEq, Repr

/-- One row of `alt_data` (`script.py` lines 40-51); no clip is applied
to any of these columns. -/
structure AltRow where
  borrower_id : List Char
  upi_transactions_monthly : ℤ
  utility_bill_payment_consistency : ℚ
  gst_returns_filed : ℤ
  mobile_recharge_frequency : ℤ
  ecommerce_transactions_monthly : ℤ
  digital_wallet_balance_avg : ℤ
  social_media_financial_mentions : ℤ
  app_usage_financial_minutes_daily : ℤ
  location_stability_score : ℚ
deriving DecidableEq, Repr

/-- One row of `loan_data` (`script.py` lines 104-121), after the clips.
`application_date` is `datetime.now() - timedelta(days=d)` modelled as an
integer day count `now - d`. -/
structure LoanRow where
  loan_id : List Char
  borrower_id : List Char
  loan_amount : ℤ
  loan_tenure_months : ℤ
  interest_rate : ℚ
  loan_purpose : LoanPurpose
  application_date : ℤ
  default_probability : ℚ
  is_default : Bool
  credit_score_traditional : ℤ
deriving DecidableEq, Repr

/-- The random draws of a run. `np.random.seed(42)` (`script.py` line 9)
fixes the generator, so every stream below is a function of the seed; one
stream per draw site, indexed by row. Integer-typed columns carry the draw
after `astype(int)`, real-typed columns the raw draw. -/
structure Streams where
  gAge : ℕ → ℤ
  gIncome : ℕ → ℤ
  gEmployment : ℕ → EmploymentType
  gCityTier : ℕ → CityTier
  gEducation : ℕ → EducationLevel
  gExistingLoans : ℕ → ℤ
  gCreditHistory : ℕ → ℤ
  gBankAge : ℕ → ℤ
  gUpi : ℕ → ℤ
  gUtility : ℕ → ℚ
  gGst : ℕ → ℤ
  gRecharge : ℕ → ℤ
  gEcommerce : ℕ → ℤ
  gWallet : ℕ → ℤ
  gSocial : ℕ → ℤ
  gAppUsage : ℕ → ℤ
  gLocation : ℕ → ℚ
  gLoanAmount : ℕ → ℤ
  gTenure : ℕ → ℤ
  gInterest : ℕ → ℚ
  gPurpose : ℕ → LoanPurpose
  gDays : ℕ → ℤ
  gNoise : ℕ → ℚ
  gUniform : ℕ → ℚ
  gCreditScore : ℕ → ℤ

/-- `calculate_default_probability` (`script.py` lines 59-96). It reads one
normal draw from the process-wide RNG (`np.random.normal(0, 0.1)`, line 94),
modelled as stream `g` at position `k`; the returned pair is (the value the
Python function returns, the RNG position after the call). -/
def calculate_default_probability (g : ℕ → ℚ) (row : BorrowerRow)
    (alt_row : AltRow) (k : ℕ) : ℚ × ℕ :=
  let risk_score : ℚ := 0
  -- Age factor (middle-aged lower risk)
  let risk_score := if 25 ≤ row.age ∧ row.age ≤ 45 then risk_score - 1/10
    else risk_score + 5/100
  -- Income factor
  let risk_score := if row.income > 50000 then risk_score - 15/100
    else if row.income < 25000 then risk_score + 2/10 else risk_score
  -- Employment stability
  let risk_score := if row.employment_type = EmploymentType.Salaried then
      risk_score - 1/10
    else if row.employment_type = EmploymentType.SelfEmployed then
      risk_score + 5/100
    else risk_score
  -- Alternative data factors
  let risk_score := if alt_row.utility_bill_payment_consistency > 8/10 then
      risk_score - 1/10 else risk_score
  let risk_score := if alt_row.upi_transactions_monthly > 30 then
      risk_score - 5/100 else risk_score
  let risk_score := if alt_row.location_stability_score > 7/10 then
      risk_score - 8/100 else risk_score
  -- Credit history
  let risk_score := if row.credit_history_months > 24 then
      risk_score - 1/10 else risk_score
  -- Random factor
  let risk_score := risk_score + g k
  (max (2/100) (min (95/100) (15/100 + risk_score)), k + 1)

/-- The age branch of the heuristic, as a standalone adjustment. -/
def ageAdj (age : ℤ) : ℚ :=
  if 25 ≤ age ∧ age ≤ 45 then -(1/10) else 5/100

/-- The income branch of the heuristic, as a standalone adjustment. -/
def incomeAdj (income : ℤ) : ℚ :=
  if income > 50000 then -(15/100) else if income < 25000 then 2/10 else 0

/-- The employment branch of the heuristic, as a standalone adjustment. -/
def employmentAdj (e : EmploymentType) : ℚ :=
  if e = EmploymentType.Salaried then -(1/10)
  else if e = EmploymentType.SelfEmployed then 5/100 else 0

/-- The utility-payment-consistency branch, as a standalone adjustment. -/
def utilityAdj (u : ℚ) : ℚ := if u > 8/10 then -(1/10) else 0

/-- The UPI-transactions branch, as a standalone adjustment. -/
def upiAdj (t : ℤ) : ℚ := if t > 30 then -(5/100) else 0

/-- The location-stability branch, as a standalone adjustment. -/
def locationAdj (l : ℚ) : ℚ := if l > 7/10 then -(8/100) else 0

/-- The credit-history branch, as a standalone adjustment. -/
def historyAdj (m : ℤ) : ℚ := if m > 24 then -(1/10) else 0

/-- The final clamp `max(0.02, min(0.95, x))` of the heuristic. -/
def clampProb (x : ℚ) : ℚ := max (2/100) (min (95/100) x)

theorem ite_acc_sub_add (c : Prop) [Decidable c] (r a b : ℚ) :
    (if c then r - a else r + b) = r + (if c then -a else b) := by
  split_ifs <;> ring

theorem ite_acc_sub_add3 (c d : Prop) [Decidable c] [Decidable d]
    (r a b : ℚ) :
    (if c then r - a else if d then r + b else r) =
      r + (if c then -a else if d then b else 0) := by
  split_ifs <;> ring

theorem ite_acc_sub (c : Prop) [Decidable c] (r a : ℚ) :
    (if c then r - a else r) = r + (if c then -a else 0) := by
  split_ifs <;> ring

theorem calculate_fst_eq (g : ℕ → ℚ) (row : BorrowerRow) (alt_row : AltRow)
    (k : ℕ) :
    (calculate_default_probability g row alt_row k).1 =
      clampProb (15/100 + (ageAdj row.age + incomeAdj row.income +
        employmentAdj row.employment_type +
        utilityAdj alt_row.utility_bill_payment_consistency +
        upiAdj alt_row.upi_transactions_monthly +
        locationAdj alt_row.location_stability_score +
        historyAdj row.credit_history_months + g k)) := by
  simp only [calculate_default_probability, ite_acc_sub_add,
    ite_acc_sub_add3, ite_acc_sub, zero_add, zero_sub, clampProb, ageAdj, incomeAdj,
    employmentAdj, utilityAdj, upiAdj, locationAdj, historyAdj]

/-- Row `i` (0-based) of `borrower_df`: the draws of `script.py` lines 15-25
followed by the `np.clip` calls of lines 28-31. -/
def mkBorrowerRow (s : Streams) (i : ℕ) : BorrowerRow where
  borrower_id := borrowerId (i + 1)
  age := npClipZ (s.gAge i) 18 70
  income := npClipZ (s.gIncome i) 15000 2000000
  employment_type := s.gEmployment i
  city_tier := s.gCityTier i
  education := s.gEducation i
  existing_loans := s.gExistingLoans i
  credit_history_months := npClipZ (s.gCreditHistory i) 0 120
  bank_account_age_months := npClipZ (s.gBankAge i) 3 240

/-- Row `i` of `alt_data_df` (`script.py` lines 40-51): raw draws, no clip;
the `borrower_id` column is `borrower_df['borrower_id']` itself. -/
def mkAltRow (s : Streams) (i : ℕ) : AltRow where
  borrower_id := borrowerId (i + 1)
  upi_transactions_monthly := s.gUpi i
  utility_bill_payment_consistency := s.gUtility i
  gst_returns_filed := s.gGst i
  mobile_recharge_frequency := s.gRecharge i
  ecommerce_transactions_monthly := s.gEcommerce i
  digital_wallet_balance_avg := s.gWallet i
  social_media_financial_mentions := s.gSocial i
  app_usage_financial_minutes_daily := s.gAppUsage i
  location_stability_score := s.gLocation i

/-- Row `i` of `loan_df` (`script.py` lines 104-121): `default_probability`
is the value `calculate_default_probability` returned for row `i`
(lines 99-102 and 113), `is_default` compares a fresh uniform draw against
that same stored value (line 114), `application_date` is
`datetime.now() - timedelta(days=...)` (line 112) with `now` the run's
wall-clock time, and lines 119-121 clip the three numeric columns. -/
def mkLoanRow (s : Streams) (now : ℤ) (i : ℕ) : LoanRow where
  loan_id := loanId (i + 1)
  borrower_id := borrowerId (i + 1)
  loan_amount := npClipZ (s.gLoanAmount i) 10000 1000000
  loan_tenure_months := s.gTenure i
  interest_rate := npClipQ (s.gInterest i) 8 25
  loan_purpose := s.gPurpose i
  application_date := now - s.gDays i
  default_probability :=
    (calculate_default_probability s.gNoise (mkBorrowerRow s i) (mkAltRow s i) i).1
  is_default :=
    decide (s.gUniform i <
      (calculate_default_probability s.gNoise (mkBorrowerRow s i) (mkAltRow s i) i).1)
  credit_score_traditional := npClipZ (s.gCreditScore i) 300 850

/-- The static guideline document `data_generation_guidelines`
(`script.py` lines 140-193), written to `data_generation_guidelines.txt`. -/
def data_generation_guidelines : String :=
  "\n"
  ++ "# Sample Data Generation Guidelines for CreditIQ Analytics\n"
  ++ "\n"
  ++ "## Overview\n"
  ++ "This document provides guidelines for generating synthetic data to validate the CreditIQ Analytics platform for NBFC credit risk assessment.\n"
  ++ "\n"
  ++ "## Data Sources and Types\n"
  ++ "\n"
  ++ "### 1. Traditional Financial Data\n"
  ++ "- **Borrower Demographics**: Age, income, employment type, education, city tier\n"
  ++ "- **Credit History**: Existing loans, credit history length, traditional credit scores\n"
  ++ "- **Loan Details**: Amount, tenure, purpose, interest rates\n"
  ++ "\n"
  ++ "### 2. Alternative Data Sources\n"
  ++ "- **UPI Transaction Data**: Monthly transaction frequency and patterns\n"
  ++ "- **Utility Payment Data**: Consistency in bill payments (electricity, mobile, internet)\n"
  ++ "- **GST Returns**: Filing frequency and compliance for business borrowers\n"
  ++ "- **Digital Wallet Usage**: Average balance and transaction frequency\n"
  ++ "- **E-commerce Behavior**: Online purchase patterns and frequency\n"
  ++ "- **Location Data**: Stability score based on location consistency\n"
  ++ "- **Mobile App Usage**: Time spent on financial apps\n"
  ++ "\n"
  ++ "## ChatGPT Prompts for Data Generation\n"
  ++ "\n"
  ++ "### Prompt 1: Borrower Profile Generation\n"
  ++ "\"Generate 100 realistic borrower profiles for an Indian NBFC with the following fields:\n"
  ++ "- Age (18-65), Income (15K-20L INR), Employment type (Salaried/Self-employed/Business), \n"
  ++ "- City tier (1/2/3), Education level, Existing loan count, Credit history months.\n"
  ++ "Make the data representative of India's demographic distribution.\"\n"
  ++ "\n"
  ++ "### Prompt 2: Alternative Data Generation  \n"
  ++ "\"Create alternative credit data for Indian borrowers including:\n"
  ++ "- Monthly UPI transactions (0-100), Utility bill payment consistency (0-1 score),\n"
  ++ "- GST returns filed (0-12 per year), Mobile recharge frequency, E-commerce transactions,\n"
  ++ "- Digital wallet average balance, Location stability score (0-1).\n"
  ++ "Ensure realistic correlations between variables.\"\n"
  ++ "\n"
  ++ "### Prompt 3: Loan Default Scenarios\n"
  ++ "\"Generate loan default scenarios considering:\n"
  ++ "- Higher default risk for: Lower income, irregular alt-data patterns, new credit users\n"
  ++ "- Lower default risk for: Consistent bill payments, stable location, regular UPI usage\n"
  ++ "- Include seasonal and economic factors affecting default rates\"\n"
  ++ "\n"
  ++ "## Validation Metrics\n"
  ++ "- Default rate should be between 3-15% (typical for Indian NBFCs)\n"
  ++ "- Strong correlation between alternative data consistency and lower default risk\n"
  ++ "- Income and employment stability should be primary risk factors\n"
  ++ "\n"
  ++ "## Data Quality Checks\n"
  ++ "1. No missing values in critical fields\n"
  ++ "2. Realistic value ranges for all variables\n"
  ++ "3. Logical correlations between related variables\n"
  ++ "4. Balanced representation across demographic segments\n"

/-- The in-memory result of one run of the script: the three tables and the
guideline document, as they stand when the four output files are written. -/
structure Output where
  borrower_table : List BorrowerRow
  alt_table : List AltRow
  loan_table : List LoanRow
  guidelines : String
deriving DecidableEq

/-- One full run of the generator: `n` is `n_borrowers` (`script.py`
line 12), `s` the draws fixed by the seed, `now` the wall-clock time
`datetime.now()` reads during the run. -/
def generate (s : Streams) (now : ℤ) (n : ℕ) : Output where
  borrower_table := (List.range n).map (mkBorrowerRow s)
  alt_table := (List.range n).map (mkAltRow s)
  loan_table := (List.range n).map (mkLoanRow s now)
  guidelines := data_generation_guidelines

/-- The four output files, in the order the script writes them
(`script.py` lines 130-132 and 195-196). -/
def allArtifacts : List String :=
  ["sample_borrower_data.csv", "sample_alternative_data.csv",
   "sample_loan_data.csv", "data_generation_guidelines.txt"]

/-- One output write: `ok` says which writes succeed; on success the file
is added to the list of files on disk, on failure the run aborts
(an uncaught exception) with the failing name and the files already
written. -/
def writeArtifact (ok : String → Bool) (fs : List String) (name : String) :
    Except (String × List String) (List String) :=
  if ok name then Except.ok (fs ++ [name]) else Except.error (name, fs)

/-- The script's output phase: the three `to_csv` calls then the guideline
write, in source order, each aborting the rest on failure; nothing is ever
deleted or rolled back. -/
def saveOutputs (ok : String → Bool) : Except (String × List String) (List String) := do
  let fs ← writeArtifact ok [] "sample_borrower_data.csv"
  let fs ← writeArtifact ok fs "sample_alternative_data.csv"
  let fs ← writeArtifact ok fs "sample_loan_data.csv"
  writeArtifact ok fs "data_generation_guidelines.txt"

/-! Bounds of the clipping operations. -/

theorem npClipZ_mem (a lo hi : ℤ) (h : lo ≤ hi) :
    lo ≤ npClipZ a lo hi ∧ npClipZ a lo hi ≤ hi := by
  unfold npClipZ
  exact ⟨le_min (le_max_right a lo) h, min_le_right _ _⟩

theorem npClipQ_mem (a lo hi : ℚ) (h : lo ≤ hi) :
    lo ≤ npClipQ a lo hi ∧ npClipQ a lo hi ≤ hi := by
  unfold npClipQ
  exact ⟨le_min (le_max_right a lo) h, min_le_right _ _⟩

theorem clampProb_bounds (x : ℚ) :
    2/100 ≤ clampProb x ∧ clampProb x ≤ 95/100 := by
  unfold clampProb
  exact ⟨le_max_left _ _, max_le (by norm_num) (min_le_left _ _)⟩

theorem clampProb_mono {a b : ℚ} (h : a ≤ b) : clampProb a ≤ clampProb b :=
  max_le_max le_rfl (min_le_min le_rfl h)

/-! Injectivity of the generated identifiers. -/

theorem digitChar_inj_lt : ∀ d < 10, ∀ e < 10,
    digitChar d = digitChar e → d = e := by decide

theorem digitChar_ne_zero_char : ∀ d < 10, d ≠ 0 → digitChar d ≠ '0' := by
  decide

theorem map_digitChar_inj : ∀ (l₁ l₂ : List ℕ), (∀ d ∈ l₁, d < 10) →
    (∀ d ∈ l₂, d < 10) → l₁.map digitChar = l₂.map digitChar → l₁ = l₂ := by
  intro l₁
  induction l₁ with
  | nil =>
    intro l₂ _ _ h
    cases l₂ with
    | nil => rfl
    | cons b t => simp at h
  | cons a t ih =>
    intro l₂ h₁ h₂ h
    cases l₂ with
    | nil => simp at h
    | cons b u =>
      simp only [List.map_cons, List.cons.injEq] at h
      have ha : a < 10 := h₁ a (by simp)
      have hb : b < 10 := h₂ b (by simp)
      have : a = b := digitChar_inj_lt a ha b hb h.1
      subst this
      have : t = u := ih u (fun d hd => h₁ d (by simp [hd]))
        (fun d hd => h₂ d (by simp [hd])) h.2
      rw [this]

theorem pyStr_inj {i j : ℕ} (hi : i ≠ 0) (hj : j ≠ 0)
    (h : pyStr i = pyStr j) : i = j := by
  unfold pyStr at h
  rw [if_neg hi, if_neg hj] at h
  have h' := List.reverse_injective h
  have hdig : Nat.digits 10 i = Nat.digits 10 j :=
    map_digitChar_inj _ _ (fun d hd => Nat.digits_lt_base (by norm_num) hd)
      (fun d hd => Nat.digits_lt_base (by norm_num) hd) h'
  have := congrArg (Nat.ofDigits 10) hdig
  rwa [Nat.ofDigits_digits, Nat.ofDigits_digits] at this

theorem pyStr_head_ne_zero {i : ℕ} (hi : i ≠ 0) :
    (pyStr i).head? ≠ some '0' := by
  unfold pyStr
  rw [if_neg hi]
  have hne : Nat.digits 10 i ≠ [] := Nat.digits_ne_nil_iff_ne_zero.mpr hi
  have hne' : (Nat.digits 10 i).map digitChar ≠ [] := by simpa using hne
  rw [List.head?_reverse, List.getLast?_eq_getLast _ hne',
    List.getLast_map digitChar (Nat.digits 10 i) hne']
  intro hcontra
  have hzero := Option.some_injective _ hcontra
  have hlast := Nat.getLast_digit_ne_zero 10 hi
  have hmem : (Nat.digits 10 i).getLast hne ∈ Nat.digits 10 i :=
    List.getLast_mem hne
  have hlt : (Nat.digits 10 i).getLast hne < 10 :=
    Nat.digits_lt_base (by norm_num) hmem
  exact digitChar_ne_zero_char _ hlt hlast hzero

theorem pad_inj : ∀ (m k : ℕ) (a b : List Char), a.head? ≠ some '0' →
    b.head? ≠ some '0' →
    List.replicate m '0' ++ a = List.replicate k '0' ++ b → a = b := by
  intro m
  induction m with
  | zero =>
    intro k a b ha hb h
    cases k with
    | zero => simpa using h
    | succ k =>
      simp only [List.replicate_zero, List.nil_append, List.replicate_succ,
        List.cons_append] at h
      exact absurd (by rw [h]; rfl) ha
  | succ m ih =>
    intro k a b ha hb h
    cases k with
    | zero =>
      simp only [List.replicate_zero, List.nil_append, List.replicate_succ,
        List.cons_append] at h
      exact absurd (by rw [← h]; rfl) hb
    | succ k =>
      simp only [List.replicate_succ, List.cons_append, List.cons.injEq] at h
      exact ih k a b ha hb h.2

theorem zfill_pyStr_inj {w i j : ℕ} (hi : i ≠ 0) (hj : j ≠ 0)
    (h : zfill w (pyStr i) = zfill w (pyStr j)) : i = j := by
  unfold zfill at h
  exact pyStr_inj hi hj
    (pad_inj _ _ _ _ (pyStr_head_ne_zero hi) (pyStr_head_ne_zero hj) h)

theorem borrowerId_inj {i j : ℕ} (h : borrowerId (i + 1) = borrowerId (j + 1)) :
    i = j := by
  unfold borrowerId at h
  simp only [List.cons.injEq, true_and] at h
  have := zfill_pyStr_inj (Nat.succ_ne_zero i) (Nat.succ_ne_zero j) h
  omega

/-- Count of indices of `List.range n` satisfying a predicate that holds at
exactly one `i < n`. -/
theorem countP_range_unique (n i : ℕ) (h : i < n) (p : ℕ → Bool)
    (hp : ∀ j, p j = true ↔ j = i) : (List.range n).countP p = 1 := by
  induction n with
  | zero => omega
  | succ n ihn =>
    rw [List.range_succ, List.countP_append]
    by_cases hin : i < n
    · have h0 : p n = false := by
        by_contra hc
        rw [Bool.not_eq_false] at hc
        exact absurd ((hp n).1 hc) (by omega)
      simp [ihn hin, List.countP_cons, h0]
    · have hni : i = n := by omega
      have h1 : p n = true := (hp n).2 hni.symm
      have h0 : (List.range n).countP p = 0 := by
        rw [List.countP_eq_zero]
        intro j hj
        rw [List.mem_range] at hj
        intro hpj
        have := (hp j).1 hpj
        omega
      simp [h0, List.countP_cons, h1]

/-! Concrete fixtures used in closed instances below. -/

/-- A run of all-constant draws: the values a seed could perfectly well
produce, pinned for concrete evaluation. -/
def constStreams : Streams where
  gAge := fun _ => 0
  gIncome := fun _ => 0
  gEmployment := fun _ => EmploymentType.Salaried
  gCityTier := fun _ => CityTier.Tier1
  gEducation := fun _ => EducationLevel.Graduate
  gExistingLoans := fun _ => 0
  gCreditHistory := fun _ => 0
  gBankAge := fun _ => 0
  gUpi := fun _ => 0
  gUtility := fun _ => 0
  gGst := fun _ => 0
  gRecharge := fun _ => 0
  gEcommerce := fun _ => 0
  gWallet := fun _ => 0
  gSocial := fun _ => 0
  gAppUsage := fun _ => 0
  gLocation := fun _ => 0
  gLoanAmount := fun _ => 0
  gTenure := fun _ => 12
  gInterest := fun _ => 16
  gPurpose := fun _ => LoanPurpose.Personal
  gDays := fun _ => 1
  gNoise := fun _ => 0
  gUniform := fun _ => 0
  gCreditScore := fun _ => 0

/-- The borrower of the spec's worked scenario: age 35, income 60000,
salaried, 30 months of credit history. -/
def scenarioRow : BorrowerRow where
  borrower_id := borrowerId 1
  age := 35
  income := 60000
  employment_type := EmploymentType.Salaried
  city_tier := CityTier.Tier1
  education := EducationLevel.Graduate
  existing_loans := 0
  credit_history_months := 30
  bank_account_age_months := 24

/-- The alternative-data record of the spec's worked scenario: utility
consistency 0.85, 40 UPI transactions, location stability 0.75. -/
def scenarioAlt : AltRow where
  borrower_id := borrowerId 1
  upi_transactions_monthly := 40
  utility_bill_payment_consistency := 85/100
  gst_returns_filed := 8
  mobile_recharge_frequency := 6
  ecommerce_transactions_monthly := 8
  digital_wallet_balance_avg := 400
  social_media_financial_mentions := 2
  app_usage_financial_minutes_daily := 30
  location_stability_score := 75/100

/-- A loan row with its calendar date dropped: every column of `loan_df`
except `application_date`. -/
structure LoanRowNoDate where
  loan_id : List Char
  borrower_id : List Char
  loan_amount : ℤ
  loan_tenure_months : ℤ
  interest_rate : ℚ
  loan_purpose : LoanPurpose
  default_probability : ℚ
  is_default : Bool
  credit_score_traditional : ℤ
deriving DecidableEq

/-- Forget the `application_date` column of a loan row. -/
def dropDate (L : LoanRow) : LoanRowNoDate where
  loan_id := L.loan_id
  borrower_id := L.borrower_id
  loan_amount := L.loan_amount
  loan_tenure_months := L.loan_tenure_months
  interest_rate := L.interest_rate
  loan_purpose := L.loan_purpose
  default_probability := L.default_probability
  is_default := L.is_default
  credit_score_traditional := L.credit_score_traditional

/-! The claims. -/

/-- C1 counterexample: the claim that two runs with the same seed and record
count give byte-identical artifacts, every value a function of seed and
record count alone, is false: `application_date` reads `datetime.now()`
(`script.py` line 112), so the same draws at two different wall-clock times
give different loan tables. -/
theorem C1_counterexample : generate constStreams 0 1 ≠ generate constStreams 1 1 := by
  intro h
  have h2 := congrArg
    (fun o => o.loan_table.map (fun L => L.application_date)) h
  simp [generate, mkLoanRow, constStreams, List.range_succ] at h2

/-- C1 (amended): with the seed (hence the draw streams) and record count
fixed, everything except the `application_date` column is reproduced
exactly: both runs produce identical borrower tables, alternative-data
tables and guideline documents, and loan tables identical in every column
but the application date; the date additionally depends on the wall-clock
time of the run. -/
theorem C1_deterministic_except_date (s : Streams) (n : ℕ) (now now' : ℤ) :
    (generate s now n).borrower_table = (generate s now' n).borrower_table ∧
    (generate s now n).alt_table = (generate s now' n).alt_table ∧
    (generate s now n).guidelines = (generate s now' n).guidelines ∧
    (generate s now n).loan_table.map dropDate =
      (generate s now' n).loan_table.map dropDate := by
  refine ⟨rfl, rfl, rfl, ?_⟩
  simp only [generate, List.map_map]
  exact congrArg (fun f => List.map f (List.range n)) (funext fun i => rfl)

/-- C2: every loan row stores as `default_probability` exactly the clamped
value `calculate_default_probability` returned (the clamp of 0.15 plus the
accumulated adjustments plus the noise draw), that stored value lies in
[0.02, 0.95], and `is_default` is the comparison of one uniform draw
strictly against that same stored value, never an unclamped or stale one. -/
theorem claim_C2 (s : Streams) (now : ℤ) (n : ℕ) :
    (generate s now n).loan_table = (List.range n).map (mkLoanRow s now) ∧
    ∀ i : ℕ,
      (mkLoanRow s now i).default_probability =
        (calculate_default_probability s.gNoise (mkBorrowerRow s i)
          (mkAltRow s i) i).1 ∧
      (mkLoanRow s now i).default_probability =
        clampProb (15/100 + (ageAdj (mkBorrowerRow s i).age +
          incomeAdj (mkBorrowerRow s i).income +
          employmentAdj (mkBorrowerRow s i).employment_type +
          utilityAdj (mkAltRow s i).utility_bill_payment_consistency +
          upiAdj (mkAltRow s i).upi_transactions_monthly +
          locationAdj (mkAltRow s i).location_stability_score +
          historyAdj (mkBorrowerRow s i).credit_history_months +
          s.gNoise i)) ∧
      2/100 ≤ (mkLoanRow s now i).default_probability ∧
      (mkLoanRow s now i).default_probability ≤ 95/100 ∧
      (mkLoanRow s now i).is_default =
        decide (s.gUniform i < (mkLoanRow s now i).default_probability) := by
  refine ⟨rfl, fun i => ?_⟩
  have hp : (mkLoanRow s now i).default_probability =
      (calculate_default_probability s.gNoise (mkBorrowerRow s i)
        (mkAltRow s i) i).1 := rfl
  refine ⟨hp, ?_, ?_, ?_, rfl⟩
  · rw [hp, calculate_fst_eq]
  · rw [hp, calculate_fst_eq]
    exact (clampProb_bounds _).1
  · rw [hp, calculate_fst_eq]
    exact (clampProb_bounds _).2

/-- C3: on the worked scenario (age 35, income 60000, salaried, utility
consistency 0.85, 40 UPI transactions, location stability 0.75, 30 months
of credit history, noise 0) the raw score before the clamp is
0.15 - 0.10 - 0.15 - 0.10 - 0.10 - 0.05 - 0.08 - 0.10 = -0.53 and the
returned clamped probability is 0.02. -/
theorem claim_C3 :
    15/100 + (ageAdj 35 + incomeAdj 60000 +
        employmentAdj EmploymentType.Salaried + utilityAdj (85/100) +
        upiAdj 40 + locationAdj (75/100) + historyAdj 30 + 0) =
      15/100 - 10/100 - 15/100 - 10/100 - 10/100 - 5/100 - 8/100 - 10/100 ∧
    15/100 + (ageAdj 35 + incomeAdj 60000 +
        employmentAdj EmploymentType.Salaried + utilityAdj (85/100) +
        upiAdj 40 + locationAdj (75/100) + historyAdj 30 + 0) = -(53/100) ∧
    (calculate_default_probability (fun _ => 0) scenarioRow scenarioAlt 0).1 =
      2/100 := by
  refine ⟨?_, ?_, ?_⟩
  · norm_num [ageAdj, incomeAdj, employmentAdj, utilityAdj, upiAdj,
      locationAdj, historyAdj]
  · norm_num [ageAdj, incomeAdj, employmentAdj, utilityAdj, upiAdj,
      locationAdj, historyAdj]
  · rw [calculate_fst_eq]
    norm_num [scenarioRow, scenarioAlt, ageAdj, incomeAdj, employmentAdj,
      utilityAdj, upiAdj, locationAdj, historyAdj, clampProb]

/-- C4: in the scoring heuristic the age bounds are inclusive (age exactly
25 and exactly 45 take the middle branch, subtracting 0.10 rather than
adding 0.05) and the income bounds are strict (income exactly 50000 and
exactly 25000 take the no-adjustment branch); the first conjunct grounds
the per-branch adjustment functions in the full heuristic. -/
theorem claim_C4 :
    (∀ (g : ℕ → ℚ) (row : BorrowerRow) (alt_row : AltRow) (k : ℕ),
      (calculate_default_probability g row alt_row k).1 =
        clampProb (15/100 + (ageAdj row.age + incomeAdj row.income +
          employmentAdj row.employment_type +
          utilityAdj alt_row.utility_bill_payment_consistency +
          upiAdj alt_row.upi_transactions_monthly +
          locationAdj alt_row.location_stability_score +
          historyAdj row.credit_history_months + g k))) ∧
    ageAdj 25 = -(1/10) ∧ ageAdj 45 = -(1/10) ∧
    ageAdj 24 = 5/100 ∧ ageAdj 46 = 5/100 ∧
    incomeAdj 50000 = 0 ∧ incomeAdj 25000 = 0 ∧
    incomeAdj 50001 = -(15/100) ∧ incomeAdj 24999 = 2/10 := by
  refine ⟨calculate_fst_eq, ?_⟩
  norm_num [ageAdj, incomeAdj]

/-- C5: with the noise fixed at 0 and every other input held fixed, raising
the utility-payment consistency from 0.5 to 0.9 never increases the
probability the heuristic returns. -/
theorem claim_C5 (row : BorrowerRow) (alt_row : AltRow) (k : ℕ) :
    (calculate_default_probability (fun _ => 0) row
      { alt_row with utility_bill_payment_consistency := 9/10 } k).1 ≤
    (calculate_default_probability (fun _ => 0) row
      { alt_row with utility_bill_payment_consistency := 1/2 } k).1 := by
  rw [calculate_fst_eq, calculate_fst_eq]
  apply clampProb_mono
  dsimp only
  rw [show utilityAdj (9/10) = -(1/10) by norm_num [utilityAdj],
    show utilityAdj (1/2) = 0 by norm_num [utilityAdj]]
  linarith

/-- C6: after generation every borrower row satisfies age ∈ [18,70],
income ∈ [15000,2000000], credit history months ∈ [0,120], bank account
age months ∈ [3,240], and every loan row satisfies loan amount ∈
[10000,1000000], interest rate ∈ [8,25], traditional credit score ∈
[300,850] and default probability ∈ [0.02,0.95], for any record count and
any draws. -/
theorem claim_C6 (s : Streams) (now : ℤ) (n : ℕ) :
    (∀ b ∈ (generate s now n).borrower_table,
      18 ≤ b.age ∧ b.age ≤ 70 ∧ 15000 ≤ b.income ∧ b.income ≤ 2000000 ∧
      0 ≤ b.credit_history_months ∧ b.credit_history_months ≤ 120 ∧
      3 ≤ b.bank_account_age_months ∧ b.bank_account_age_months ≤ 240) ∧
    (∀ L ∈ (generate s now n).loan_table,
      10000 ≤ L.loan_amount ∧ L.loan_amount ≤ 1000000 ∧
      8 ≤ L.interest_rate ∧ L.interest_rate ≤ 25 ∧
      300 ≤ L.credit_score_traditional ∧ L.credit_score_traditional ≤ 850 ∧
      2/100 ≤ L.default_probability ∧ L.default_probability ≤ 95/100) := by
  constructor
  · intro b hb
    simp only [generate, List.mem_map, List.mem_range] at hb
    obtain ⟨i, _, rfl⟩ := hb
    simp only [mkBorrowerRow]
    exact ⟨(npClipZ_mem _ _ _ (by norm_num)).1,
      (npClipZ_mem _ _ _ (by norm_num)).2,
      (npClipZ_mem _ _ _ (by norm_num)).1,
      (npClipZ_mem _ _ _ (by norm_num)).2,
      (npClipZ_mem _ _ _ (by norm_num)).1,
      (npClipZ_mem _ _ _ (by norm_num)).2,
      (npClipZ_mem _ _ _ (by norm_num)).1,
      (npClipZ_mem _ _ _ (by norm_num)).2⟩
  · intro L hL
    simp only [generate, List.mem_map, List.mem_range] at hL
    obtain ⟨i, _, rfl⟩ := hL
    simp only [mkLoanRow, calculate_fst_eq]
    exact ⟨(npClipZ_mem _ _ _ (by norm_num)).1,
      (npClipZ_mem _ _ _ (by norm_num)).2,
      (npClipQ_mem _ _ _ (by norm_num)).1,
      (npClipQ_mem _ _ _ (by norm_num)).2,
      (npClipZ_mem _ _ _ (by norm_num)).1,
      (npClipZ_mem _ _ _ (by norm_num)).2,
      (clampProb_bounds _).1, (clampProb_bounds _).2⟩

/-- C6 witness: the post-condition instantiated at a concrete run of one
record with constant draws. -/
theorem claim_C6_witness :
    (18 ≤ (mkBorrowerRow constStreams 0).age ∧
      (mkBorrowerRow constStreams 0).age ≤ 70 ∧
      15000 ≤ (mkBorrowerRow constStreams 0).income ∧
      (mkBorrowerRow constStreams 0).income ≤ 2000000 ∧
      0 ≤ (mkBorrowerRow constStreams 0).credit_history_months ∧
      (mkBorrowerRow constStreams 0).credit_history_months ≤ 120 ∧
      3 ≤ (mkBorrowerRow constStreams 0).bank_account_age_months ∧
      (mkBorrowerRow constStreams 0).bank_account_age_months ≤ 240) ∧
    (10000 ≤ (mkLoanRow constStreams 0 0).loan_amount ∧
      (mkLoanRow constStreams 0 0).loan_amount ≤ 1000000 ∧
      8 ≤ (mkLoanRow constStreams 0 0).interest_rate ∧
      (mkLoanRow constStreams 0 0).interest_rate ≤ 25 ∧
      300 ≤ (mkLoanRow constStreams 0 0).credit_score_traditional ∧
      (mkLoanRow constStreams 0 0).credit_score_traditional ≤ 850 ∧
      2/100 ≤ (mkLoanRow constStreams 0 0).default_probability ∧
      (mkLoanRow constStreams 0 0).default_probability ≤ 95/100) :=
  ⟨(claim_C6 constStreams 0 1).1 (mkBorrowerRow constStreams 0)
      (by simp [generate]),
    (claim_C6 constStreams 0 1).2 (mkLoanRow constStreams 0 0)
      (by simp [generate])⟩

/-- A write environment in which the third output, `sample_loan_data.csv`,
fails and every other write succeeds. -/
def okFailLoan : String → Bool := fun nm => !(nm == "sample_loan_data.csv")

/-- C7 counterexample: output production is not all-or-nothing. When the
third write fails, the run aborts with the first two CSV files already on
disk: a non-empty proper subset of the four artifacts remains for
downstream observers. -/
theorem C7_counterexample :
    saveOutputs okFailLoan =
      Except.error ("sample_loan_data.csv",
        ["sample_borrower_data.csv", "sample_alternative_data.csv"]) ∧
    ["sample_borrower_data.csv", "sample_alternative_data.csv"] ≠
      ([] : List String) ∧
    ["sample_borrower_data.csv", "sample_alternative_data.csv"] ≠
      allArtifacts := by
  refine ⟨rfl, by simp, by simp [allArtifacts]⟩

theorem except_ok_bind {ε α β : Type} (a : α) (f : α → Except ε β) :
    (Except.ok a >>= f) = f a := rfl

theorem except_error_bind {ε α β : Type} (e : ε) (f : α → Except ε β) :
    ((Except.error e : Except ε α) >>= f) = Except.error e := rfl

/-- C7 (amended): a failed write aborts the run before any later write is
attempted (so the failure is fatal, as the spec asks), but the files
already written stay on disk: after a failure of the k-th write the first
k artifacts remain present, and only a run with all four writes succeeding
leaves all four artifacts. -/
theorem claim_C7_amended (ok : String → Bool) :
    (ok "sample_borrower_data.csv" = false →
      saveOutputs ok = Except.error ("sample_borrower_data.csv", [])) ∧
    (ok "sample_borrower_data.csv" = true →
      ok "sample_alternative_data.csv" = false →
      saveOutputs ok = Except.error ("sample_alternative_data.csv",
        ["sample_borrower_data.csv"])) ∧
    (ok "sample_borrower_data.csv" = true →
      ok "sample_alternative_data.csv" = true →
      ok "sample_loan_data.csv" = false →
      saveOutputs ok = Except.error ("sample_loan_data.csv",
        ["sample_borrower_data.csv", "sample_alternative_data.csv"])) ∧
    (ok "sample_borrower_data.csv" = true →
      ok "sample_alternative_data.csv" = true →
      ok "sample_loan_data.csv" = true →
      ok "data_generation_guidelines.txt" = false →
      saveOutputs ok = Except.error ("data_generation_guidelines.txt",
        ["sample_borrower_data.csv", "sample_alternative_data.csv",
         "sample_loan_data.csv"])) ∧
    (ok "sample_borrower_data.csv" = true →
      ok "sample_alternative_data.csv" = true →
      ok "sample_loan_data.csv" = true →
      ok "data_generation_guidelines.txt" = true →
      saveOutputs ok = Except.ok allArtifacts) := by
  refine ⟨?_, ?_, ?_, ?_, ?_⟩ <;> intros <;>
    simp_all [saveOutputs, writeArtifact, allArtifacts, except_ok_bind,
      except_error_bind]

/-- C7 amended witness: the all-writes-succeed environment produces all
four artifacts. -/
theorem claim_C7_amended_witness :
    saveOutputs (fun _ => true) = Except.ok allArtifacts :=
  (claim_C7_amended (fun _ => true)).2.2.2.2 rfl rfl rfl rfl

/-- C8 counterexample: the heuristic does not leave the process-wide RNG
unchanged: one call from RNG position 0 leaves the RNG at a different
position (it consumes the noise draw of `script.py` line 94). -/
theorem C8_counterexample :
    (calculate_default_probability (fun _ => 0) scenarioRow scenarioAlt 0).2 ≠
      0 := by
  decide

/-- C8 (amended): the heuristic returns a single value, the probability
(the default outcome is sampled later by its caller, `script.py` line 114),
and its only effect on program state is advancing the process-wide RNG by
exactly the one normal draw it consumes: from position k it leaves the RNG
at k + 1, and its returned probability depends on the RNG stream only
through the draw at position k. -/
theorem claim_C8_amended (g g' : ℕ → ℚ) (row : BorrowerRow)
    (alt_row : AltRow) (k : ℕ) (h : g k = g' k) :
    (calculate_default_probability g row alt_row k).2 = k + 1 ∧
    (calculate_default_probability g row alt_row k).1 =
      (calculate_default_probability g' row alt_row k).1 := by
  refine ⟨rfl, ?_⟩
  rw [calculate_fst_eq, calculate_fst_eq, h]

/-- C8 amended witness: the state-advance and one-draw-dependence at a
concrete call. -/
theorem claim_C8_amended_witness :
    (calculate_default_probability (fun _ => 0) scenarioRow scenarioAlt 0).2 =
      0 + 1 ∧
    (calculate_default_probability (fun _ => 0) scenarioRow scenarioAlt 0).1 =
      (calculate_default_probability (fun _ => 0) scenarioRow scenarioAlt 0).1 :=
  claim_C8_amended (fun _ => 0) (fun _ => 0) scenarioRow scenarioAlt 0 rfl

/-- C9: every loan row's borrower identifier matches exactly one row of the
borrower table and exactly one row of the alternative-data table, for any
record count and draws. -/
theorem claim_C9 (s : Streams) (now : ℤ) (n : ℕ) (L : LoanRow)
    (hL : L ∈ (generate s now n).loan_table) :
    ((generate s now n).borrower_table.countP
      (fun b => b.borrower_id == L.borrower_id)) = 1 ∧
    ((generate s now n).alt_table.countP
      (fun a => a.borrower_id == L.borrower_id)) = 1 := by
  simp only [generate] at hL ⊢
  rw [List.mem_map] at hL
  obtain ⟨i, hi, rfl⟩ := hL
  rw [List.mem_range] at hi
  rw [List.countP_map, List.countP_map]
  constructor
  · apply countP_range_unique n i hi
    intro j
    simp only [Function.comp_apply, mkBorrowerRow, mkLoanRow, beq_iff_eq]
    exact ⟨fun hj => borrowerId_inj hj, fun hj => by rw [hj]⟩
  · apply countP_range_unique n i hi
    intro j
    simp only [Function.comp_apply, mkAltRow, mkLoanRow, beq_iff_eq]
    exact ⟨fun hj => borrowerId_inj hj, fun hj => by rw [hj]⟩

/-- C9 witness: referential integrity at a concrete one-record run. -/
theorem claim_C9_witness :
    ((generate constStreams 0 1).borrower_table.countP
      (fun b => b.borrower_id == (mkLoanRow constStreams 0 0).borrower_id)) =
        1 ∧
    ((generate constStreams 0 1).alt_table.countP
      (fun a => a.borrower_id == (mkLoanRow constStreams 0 0).borrower_id)) =
        1 :=
  claim_C9 constStreams 0 1 (mkLoanRow constStreams 0 0) (by simp [generate])

/-- C10: every generated alternative-data row satisfies its stated ranges
with no clamping in the code: whenever the draws lie in the supports of
their distributions (Poisson and the truncated exponential and lognormal
draws non-negative, beta draws in [0,1], binomial(12, ·) draws in [0,12]),
the emitted fields — which are those draws unchanged — satisfy utility
consistency ∈ [0,1], location stability ∈ [0,1], GST returns ∈ [0,12] and
the six count/amount fields non-negative. -/
theorem claim_C10 (s : Streams) (now : ℤ) (n : ℕ)
    (hUpi : ∀ k, 0 ≤ s.gUpi k)
    (hUtil : ∀ k, 0 ≤ s.gUtility k ∧ s.gUtility k ≤ 1)
    (hGst : ∀ k, 0 ≤ s.gGst k ∧ s.gGst k ≤ 12)
    (hRecharge : ∀ k, 0 ≤ s.gRecharge k)
    (hEcom : ∀ k, 0 ≤ s.gEcommerce k)
    (hWallet : ∀ k, 0 ≤ s.gWallet k)
    (hSocial : ∀ k, 0 ≤ s.gSocial k)
    (hApp : ∀ k, 0 ≤ s.gAppUsage k)
    (hLoc : ∀ k, 0 ≤ s.gLocation k ∧ s.gLocation k ≤ 1) :
    ∀ a ∈ (generate s now n).alt_table,
      0 ≤ a.utility_bill_payment_consistency ∧
      a.utility_bill_payment_consistency ≤ 1 ∧
      0 ≤ a.location_stability_score ∧ a.location_stability_score ≤ 1 ∧
      0 ≤ a.gst_returns_filed ∧ a.gst_returns_filed ≤ 12 ∧
      0 ≤ a.upi_transactions_monthly ∧ 0 ≤ a.mobile_recharge_frequency ∧
      0 ≤ a.ecommerce_transactions_monthly ∧
      0 ≤ a.digital_wallet_balance_avg ∧
      0 ≤ a.social_media_financial_mentions ∧
      0 ≤ a.app_usage_financial_minutes_daily := by
  intro a ha
  simp only [generate, List.mem_map, List.mem_range] at ha
  obtain ⟨i, _, rfl⟩ := ha
  simp only [mkAltRow]
  exact ⟨(hUtil i).1, (hUtil i).2, (hLoc i).1, (hLoc i).2, (hGst i).1,
    (hGst i).2, hUpi i, hRecharge i, hEcom i, hWallet i, hSocial i, hApp i⟩

/-- C10 witness: the ranges at a concrete one-record run whose constant
draws lie in the distribution supports. -/
theorem claim_C10_witness :
    0 ≤ (mkAltRow constStreams 0).utility_bill_payment_consistency ∧
    (mkAltRow constStreams 0).utility_bill_payment_consistency ≤ 1 ∧
    0 ≤ (mkAltRow constStreams 0).location_stability_score ∧
    (mkAltRow constStreams 0).location_stability_score ≤ 1 ∧
    0 ≤ (mkAltRow constStreams 0).gst_returns_filed ∧
    (mkAltRow constStreams 0).gst_returns_filed ≤ 12 ∧
    0 ≤ (mkAltRow constStreams 0).upi_transactions_monthly ∧
    0 ≤ (mkAltRow constStreams 0).mobile_recharge_frequency ∧
    0 ≤ (mkAltRow constStreams 0).ecommerce_transactions_monthly ∧
    0 ≤ (mkAltRow constStreams 0).digital_wallet_balance_avg ∧
    0 ≤ (mkAltRow constStreams 0).social_media_financial_mentions ∧
    0 ≤ (mkAltRow constStreams 0).app_usage_financial_minutes_daily :=
  claim_C10 constStreams 0 1 (fun _ => le_rfl)
    (fun _ => ⟨le_rfl, by norm_num [constStreams]⟩)
    (fun _ => ⟨le_rfl, by norm_num [constStreams]⟩)
    (fun _ => le_rfl) (fun _ => le_rfl) (fun _ => le_rfl) (fun _ => le_rfl)
    (fun _ => le_rfl) (fun _ => ⟨le_rfl, by norm_num [constStreams]⟩)
    (mkAltRow constStreams 0) (by simp [generate])

end CreditIQ
